import Mathlib

/-!
# GoExpress delivery-tracking backend: shallow embedding and verification

This file embeds the data model and the request handlers of the GoExpress
courier backend (a Go REST API over PostgreSQL) as executable Lean
definitions, and proves properties of the handlers.

Embedding conventions:
* The relational store (users, zones, shipments, tracking_updates tables)
  is a record of lists together with the `SERIAL` counters of the tables.
* SQL statements become pure functions on the store; a handler is a function
  from its request data and the store to a result paired with the new store.
* Go `float64` amounts (weight, price_per_kg) are modelled as `Rat`;
  `TIMESTAMP` values are modelled as `Nat` and supplied as a `now` argument
  where the code uses `CURRENT_TIMESTAMP`.
* `http.Error` calls become `ApiError` values carrying the handler's message;
  the HTTP status used by the code is recovered by `ApiError.status`.
* The handlers issue each SQL statement as a separate auto-committed
  statement (the code never calls `Begin`/`Commit`); a statement that can
  fail for reasons outside the data (a dropped connection, for instance)
  is given an explicit failure-injection flag where a claim depends on it.
-/

namespace GoExpress

/-- Decoded token payload (`utils.Claims`): user id, email and role,
as attached to the request context by the auth middleware. -/
structure Claims where
  userID : Nat
  email : String
  role : String
deriving Repr, DecidableEq

/-- One row of the `users` table. -/
structure User where
  id : Nat
  name : String
  email : String
  passwordHash : String
  role : String
  createdAt : Nat
  updatedAt : Nat
deriving Repr, DecidableEq

/-- One row of the `zones` table. -/
structure Zone where
  id : Nat
  name : String
  pricePerKg : Rat
  createdAt : Nat
  updatedAt : Nat
deriving Repr, DecidableEq

/-- One row of the `shipments` table; `driverId` is the nullable
`driver_id` column. -/
structure Shipment where
  id : Nat
  trackingNumber : String
  origin : String
  destination : String
  weight : Rat
  zoneId : Nat
  status : String
  customerId : Nat
  driverId : Option Nat
  createdAt : Nat
  updatedAt : Nat
deriving Repr, DecidableEq

/-- One row of the `tracking_updates` table. -/
structure TrackingUpdate where
  id : Nat
  shipmentId : Nat
  status : String
  location : String
  timestamp : Nat
  createdAt : Nat
deriving Repr, DecidableEq

/-- The relational store: the four tables plus their `SERIAL` id counters. -/
structure Store where
  users : List User
  zones : List Zone
  shipments : List Shipment
  trackingUpdates : List TrackingUpdate
  nextUserId : Nat
  nextZoneId : Nat
  nextShipmentId : Nat
  nextTrackingId : Nat
deriving Repr, DecidableEq

/-- The error taxonomy the handlers map onto HTTP statuses via
`http.Error(w, msg, status)`. -/
inductive ApiError where
  | validationError (msg : String)
  | authenticationError (msg : String)
  | authorizationError (msg : String)
  | notFoundError (msg : String)
  | conflictError (msg : String)
  | storeError (msg : String)
deriving Repr, DecidableEq

/-- The HTTP status code each error kind is written with. -/
def ApiError.status : ApiError → Nat
  | .validationError _ => 400
  | .authenticationError _ => 401
  | .authorizationError _ => 403
  | .notFoundError _ => 404
  | .conflictError _ => 409
  | .storeError _ => 500

/-! ## Row lookups (SELECT ... WHERE) -/

/-- `SELECT ... FROM users WHERE email = $1` (first match). -/
def findUserByEmail (s : Store) (email : String) : Option User :=
  s.users.find? (fun u => u.email == email)

/-- `SELECT ... FROM users WHERE id = $1`. -/
def findUserById (s : Store) (userId : Nat) : Option User :=
  s.users.find? (fun u => u.id == userId)

/-- `SELECT ... FROM zones WHERE id = $1`. -/
def findZone (s : Store) (zoneId : Nat) : Option Zone :=
  s.zones.find? (fun z => z.id == zoneId)

/-- `SELECT ... FROM shipments WHERE id = $1`. -/
def findShipmentById (s : Store) (shipmentId : Nat) : Option Shipment :=
  s.shipments.find? (fun sh => sh.id == shipmentId)

/-- `SELECT ... FROM shipments WHERE tracking_number = $1`. -/
def findShipmentByTracking (s : Store) (tn : String) : Option Shipment :=
  s.shipments.find? (fun sh => sh.trackingNumber == tn)

/-- `SELECT ... FROM tracking_updates WHERE shipment_id = $1
ORDER BY timestamp DESC`. -/
def shipmentTrackingHistory (s : Store) (shipmentId : Nat) : List TrackingUpdate :=
  List.insertionSort (fun a b => b.timestamp ≤ a.timestamp)
    (s.trackingUpdates.filter (fun tu => tu.shipmentId == shipmentId))

/-! ## Request bodies and their `validator.Struct` checks

The go-playground validator semantics used by the models:
`required` fails on the zero value of the field (empty string, `0` number),
`gt=0` requires a strictly positive number, `min=6` requires string length
at least 6, `oneof=...` requires membership in the listed values,
`eqfield=F` requires equality with field `F`.  The library's `email` tag is
an external collaborator; it is abstracted as: exactly one `@` separating
two nonempty parts, with a dot in the domain part. -/

/-- Abstraction of the external validator library's `email` tag: exactly one
`'@'`, a nonempty local part and domain, and a dot in the domain.  (The real
library checks a fuller RFC pattern; every concrete email used in this
development satisfies both.) -/
def emailOk (e : String) : Bool :=
  let cs := e.data
  cs.count '@' == 1 &&
    cs.takeWhile (fun c => c != '@') != ([] : List Char) &&
    ((cs.dropWhile (fun c => c != '@')).drop 1) != ([] : List Char) &&
    ((cs.dropWhile (fun c => c != '@')).drop 1).contains '.'

/-- Body of `POST /api/auth/register` (`models.UserRegistration`). -/
structure UserRegistration where
  name : String
  email : String
  password : String
  role : String
deriving Repr, DecidableEq

/-- `validator.Struct` on `UserRegistration`: name required, email format,
password `min=6`, role `oneof=admin driver client`. -/
def UserRegistration.valid (r : UserRegistration) : Bool :=
  r.name != "" && emailOk r.email && decide (6 ≤ r.password.length) &&
    (r.role == "admin" || r.role == "driver" || r.role == "client")

/-- Body of `POST /api/shipments` (`models.ShipmentRequest`). -/
structure ShipmentRequest where
  origin : String
  destination : String
  weight : Rat
  zoneId : Nat
deriving Repr, DecidableEq

/-- `validator.Struct` on `ShipmentRequest`: origin/destination required,
weight `required,gt=0`, zone_id `required` (nonzero int). -/
def ShipmentRequest.valid (r : ShipmentRequest) : Bool :=
  r.origin != "" && r.destination != "" && decide (0 < r.weight) && r.zoneId != 0

/-- Body of `POST /api/quote` (`models.QuoteRequest`). -/
structure QuoteRequest where
  weight : Rat
  zoneId : Nat
deriving Repr, DecidableEq

/-- `validator.Struct` on `QuoteRequest`: weight `required,gt=0`,
zone_id `required` (nonzero int). -/
def QuoteRequest.valid (r : QuoteRequest) : Bool :=
  decide (0 < r.weight) && r.zoneId != 0

/-- Body of `PUT /api/shipments/{id}/status` (anonymous struct in the
handler): status `required`, location unconstrained. -/
structure StatusUpdateRequest where
  status : String
  location : String
deriving Repr, DecidableEq

/-- Body of `PUT /api/users/{id}` (`models.UpdateUserRequest`). -/
structure UpdateUserRequest where
  name : String
  email : String
  role : String
deriving Repr, DecidableEq

/-- `validator.Struct` on `UpdateUserRequest`. -/
def UpdateUserRequest.valid (r : UpdateUserRequest) : Bool :=
  r.name != "" && emailOk r.email &&
    (r.role == "admin" || r.role == "driver" || r.role == "client")

/-- Body of `PUT /api/users/profile` (`models.UpdateProfileRequest`). -/
structure UpdateProfileRequest where
  name : String
  email : String
deriving Repr, DecidableEq

/-- `validator.Struct` on `UpdateProfileRequest`. -/
def UpdateProfileRequest.valid (r : UpdateProfileRequest) : Bool :=
  r.name != "" && emailOk r.email

/-- Body of `POST /api/users/change-password`
(`models.ChangePasswordRequest`). -/
structure ChangePasswordRequest where
  currentPassword : String
  newPassword : String
  confirmPassword : String
deriving Repr, DecidableEq

/-- `validator.Struct` on `ChangePasswordRequest`: current required,
new `min=6`, confirm `eqfield=NewPassword`. -/
def ChangePasswordRequest.valid (r : ChangePasswordRequest) : Bool :=
  r.currentPassword != "" && decide (6 ≤ r.newPassword.length) &&
    r.confirmPassword == r.newPassword

/-- Body of `POST /api/users/{id}/reset-password`
(`models.ResetPasswordRequest`). -/
structure ResetPasswordRequest where
  newPassword : String
deriving Repr, DecidableEq

/-- `validator.Struct` on `ResetPasswordRequest`: new password `min=6`. -/
def ResetPasswordRequest.valid (r : ResetPasswordRequest) : Bool :=
  decide (6 ≤ r.newPassword.length)

/-- Body of `PUT /api/drivers/{id}` (`models.UpdateDriverRequest`);
only the fields the handler writes to the users table plus the validated
status field are kept. -/
structure UpdateDriverRequest where
  name : String
  email : String
  status : String
deriving Repr, DecidableEq

/-- `validator.Struct` on `UpdateDriverRequest`: name/email required,
status `oneof=available busy offline`. -/
def UpdateDriverRequest.valid (r : UpdateDriverRequest) : Bool :=
  r.name != "" && emailOk r.email &&
    (r.status == "available" || r.status == "busy" || r.status == "offline")

/-! ## `utils` package -/

/-- The sixteen uppercase hexadecimal digit characters, in value order. -/
def hexDigits : List Char :=
  ['0', '1', '2', '3', '4', '5', '6', '7', '8', '9', 'A', 'B', 'C', 'D', 'E', 'F']

/-- The uppercase hexadecimal digit of a value below 16. -/
def hexDigit (n : Nat) : Char := hexDigits.getD n '0'

/-- Go's `fmt.Sprintf("%X", bytes)` on a byte slice: each byte becomes two
uppercase hexadecimal characters, high nibble first. -/
def bytesHexChars : List Nat → List Char
  | [] => []
  | b :: bs => hexDigit (b / 16) :: hexDigit (b % 16) :: bytesHexChars bs

/-- `utils.GenerateTrackingNumber`, as a function of the 4 bytes drawn from
`crypto/rand`: `"GEX" + fmt.Sprintf("%X", bytes)`. -/
def generateTrackingNumber (bytes : List Nat) : String :=
  "GEX" ++ String.mk (bytesHexChars bytes)

/-- `utils.ValidateTrackingNumber`: `strings.HasPrefix(tn, "GEX") &&
len(tn) == 11`.  `strings.HasPrefix` on the ASCII pattern `"GEX"` is the
character-list prefix test, and Go's byte length is the character count for
ASCII strings. -/
def validateTrackingNumber (tn : String) : Bool :=
  "GEX".data.isPrefixOf tn.data && tn.length == 11

/-- `utils.HashPassword` delegates to bcrypt (an external collaborator,
out of scope per the spec); modelled as a fixed injective tagging of the
password. -/
def hashPassword (password : String) : String :=
  "bcrypt$" ++ password

/-- `utils.CheckPasswordHash`: true when the hash was produced from the
password. -/
def checkPasswordHash (password hash : String) : Bool :=
  hash == hashPassword password

/-- Modelled from the spec: the token issuer (`utils.GenerateJWT` and
`utils.GenerateRefreshToken`, whose source file is not in the repository
snapshot; only their call sites are) produces a stateless signed token whose
claims carry the user id, email and role, signed with the given secret
(spec §4.1).  The token is modelled as the signed claim record itself. -/
structure Token where
  userID : Nat
  email : String
  role : String
  secret : String
deriving Repr, DecidableEq

/-- Modelled from the spec: `utils.GenerateJWT(userID, email, role, secret)`
issues the access token carrying those claims (spec §4.1). -/
def generateJWT (userID : Nat) (email role secret : String) : Token :=
  { userID := userID, email := email, role := role, secret := secret }

/-- Modelled from the spec: `utils.GenerateRefreshToken` issues the
longer-lived refresh token with the same claim shape, signed with the
separate refresh secret (spec §4.1). -/
def generateRefreshToken (userID : Nat) (email role secret : String) : Token :=
  { userID := userID, email := email, role := role, secret := secret }

/-- `models.AuthResponse`. -/
structure AuthResponse where
  token : Token
  refreshToken : Token
  user : User
deriving Repr, DecidableEq

/-- `models.QuoteResponse`. -/
structure QuoteResponse where
  weight : Rat
  zoneId : Nat
  zoneName : String
  pricePerKg : Rat
  totalPrice : Rat
deriving Repr, DecidableEq

/-- `models.ShipmentResponse`: shipment, tracking history, zone. -/
structure ShipmentResponse where
  shipment : Shipment
  trackingHistory : List TrackingUpdate
  zone : Zone
deriving Repr, DecidableEq

/-! ## Handlers

Each handler takes its request data and the store and returns the result
(`Except ApiError ...`, where `.error e` stands for `http.Error(w, msg,
e.status)`) paired with the store as left by the statements it executed. -/

/-- `AuthHandler.Register` (`POST /api/auth/register`, public).  Validates
the body, rejects an existing email with 409, inserts the user with the
requested role, and issues both tokens (auth.go:37-100). -/
def register (req : UserRegistration) (now : Nat) (jwtSecret refreshSecret : String)
    (s : Store) : (Except ApiError AuthResponse) × Store :=
  if !req.valid then (.error (.validationError "validation failed"), s)
  else if (findUserByEmail s req.email).isSome then
    (.error (.conflictError "User already exists"), s)
  else
    let user : User :=
      { id := s.nextUserId, name := req.name, email := req.email,
        passwordHash := hashPassword req.password, role := req.role,
        createdAt := now, updatedAt := now }
    let s1 := { s with users := s.users ++ [user], nextUserId := s.nextUserId + 1 }
    (.ok { token := generateJWT user.id user.email user.role jwtSecret,
           refreshToken := generateRefreshToken user.id user.email user.role refreshSecret,
           user := user }, s1)

/-- Foreign-key and uniqueness checks PostgreSQL applies to
`INSERT INTO shipments`: `zone_id REFERENCES zones(id)`,
`customer_id REFERENCES users(id)`, `tracking_number UNIQUE`. -/
def shipmentInsertOk (s : Store) (sh : Shipment) : Bool :=
  (findZone s sh.zoneId).isSome && (findUserById s sh.customerId).isSome &&
    (findShipmentByTracking s sh.trackingNumber).isNone

/-- `ShipmentHandler.CreateShipment` (`POST /api/shipments`, auth)
(shipment.go:217-272).  The generated tracking number is passed in
(`utils.GenerateTrackingNumber` is a function of random bytes, embedded
separately).  The handler issues the shipment INSERT and the initial
tracking-update INSERT as two separate auto-committed statements — there is
no `Begin`/`Commit` in the code — so `trackInsertFails` injects a failure of
the second `db.Exec` (a failure independent of the data, such as a dropped
connection), mirroring the `err != nil` branch at shipment.go:264-267. -/
def createShipment (claims : Claims) (req : ShipmentRequest) (trackingNumber : String)
    (now : Nat) (trackInsertFails : Bool) (s : Store) :
    (Except ApiError Shipment) × Store :=
  if !req.valid then (.error (.validationError "validation failed"), s)
  else
    let sh : Shipment :=
      { id := s.nextShipmentId, trackingNumber := trackingNumber,
        origin := req.origin, destination := req.destination,
        weight := req.weight, zoneId := req.zoneId, status := "pending",
        customerId := claims.userID, driverId := none,
        createdAt := now, updatedAt := now }
    if !shipmentInsertOk s sh then
      (.error (.storeError "Failed to create shipment"), s)
    else
      let s1 := { s with shipments := s.shipments ++ [sh],
                         nextShipmentId := s.nextShipmentId + 1 }
      if trackInsertFails then
        (.error (.storeError "Failed to create tracking update"), s1)
      else
        let tu : TrackingUpdate :=
          { id := s1.nextTrackingId, shipmentId := sh.id, status := "pending",
            location := req.origin, timestamp := now, createdAt := now }
        (.ok sh, { s1 with trackingUpdates := s1.trackingUpdates ++ [tu],
                           nextTrackingId := s1.nextTrackingId + 1 })

/-- `ShipmentHandler.GetShipments` (`GET /api/shipments`, auth): role-shaped
query, `ORDER BY created_at DESC` (shipment.go:159-206).  `admin` reads the
whole table, `driver` filters `driver_id = claims.userID`, every other role
(the `default` branch, i.e. `client`) filters `customer_id = claims.userID`. -/
def getShipments (claims : Claims) (s : Store) : List Shipment :=
  let rows :=
    if claims.role == "admin" then s.shipments
    else if claims.role == "driver" then
      s.shipments.filter (fun sh => sh.driverId == some claims.userID)
    else
      s.shipments.filter (fun sh => sh.customerId == claims.userID)
  List.insertionSort (fun a b => b.createdAt ≤ a.createdAt) rows

/-- `ShipmentHandler.GetShipmentByTracking`
(`GET /api/shipments/{tracking_number}`, public) (shipment.go:281-354).
Format check first; then shipment lookup (404 on no row), tracking history,
and zone lookup (any zone scan failure, including no row, is a 500). -/
def getShipmentByTracking (tn : String) (s : Store) : Except ApiError ShipmentResponse :=
  if !validateTrackingNumber tn then
    .error (.validationError "Invalid tracking number format")
  else
    match findShipmentByTracking s tn with
    | none => .error (.notFoundError "Shipment not found")
    | some sh =>
      match findZone s sh.zoneId with
      | none => .error (.storeError "Failed to get zone info")
      | some z =>
        .ok { shipment := sh, trackingHistory := shipmentTrackingHistory s sh.id,
              zone := z }

/-- `ShipmentHandler.GetQuote` (`POST /api/quote`, public)
(shipment.go:364-405): validate, zone lookup (404 on no row),
`totalPrice := req.Weight * zone.PricePerKg`. -/
def getQuote (req : QuoteRequest) (s : Store) : Except ApiError QuoteResponse :=
  if !req.valid then .error (.validationError "validation failed")
  else
    match findZone s req.zoneId with
    | none => .error (.notFoundError "Zone not found")
    | some z =>
      .ok { weight := req.weight, zoneId := req.zoneId, zoneName := z.name,
            pricePerKg := z.pricePerKg, totalPrice := req.weight * z.pricePerKg }

/-- `ShipmentHandler.UpdateShipmentStatus`
(`PUT /api/shipments/{id}/status`, auth) (shipment.go:417-480).  Three
separate statements: an UPDATE that silently matches zero rows when the id
does not exist, an INSERT into tracking_updates whose
`shipment_id REFERENCES shipments(id)` foreign key fails exactly when no
such shipment row exists (the `err != nil` branch at shipment.go:457-460),
and a re-SELECT of the updated shipment. -/
def updateShipmentStatus (shipmentId : Nat) (req : StatusUpdateRequest) (now : Nat)
    (s : Store) : (Except ApiError Shipment) × Store :=
  if req.status == "" then (.error (.validationError "validation failed"), s)
  else
    let s1 := { s with shipments := s.shipments.map (fun sh =>
        if sh.id == shipmentId then { sh with status := req.status, updatedAt := now }
        else sh) }
    if (findShipmentById s1 shipmentId).isNone then
      (.error (.storeError "Failed to add tracking update"), s1)
    else
      let tu : TrackingUpdate :=
        { id := s1.nextTrackingId, shipmentId := shipmentId, status := req.status,
          location := req.location, timestamp := now, createdAt := now }
      let s2 := { s1 with trackingUpdates := s1.trackingUpdates ++ [tu],
                          nextTrackingId := s1.nextTrackingId + 1 }
      match findShipmentById s2 shipmentId with
      | none => (.error (.storeError "Failed to get updated shipment"), s2)
      | some sh => (.ok sh, s2)

/-- `ZoneHandler.DeleteZone` (`DELETE /api/zones/{id}`, admin-only routing)
(part_000:312-338).  `DELETE FROM zones WHERE id = $1`: when any shipment
still references the zone, PostgreSQL rejects the DELETE with a foreign-key
violation and `db.Exec` returns an error, which the handler maps to the
generic 500 `"Failed to delete zone"`; otherwise `rowsAffected == 0` maps to
404 and a positive count to 204. -/
def deleteZone (zoneId : Nat) (s : Store) : (Except ApiError Unit) × Store :=
  if s.shipments.any (fun sh => sh.zoneId == zoneId) then
    (.error (.storeError "Failed to delete zone"), s)
  else
    let remaining := s.zones.filter (fun z => z.id != zoneId)
    if remaining.length == s.zones.length then
      (.error (.notFoundError "Zone not found"), { s with zones := remaining })
    else
      (.ok (), { s with zones := remaining })

/-- `UserHandler.UpdateUser` (`PUT /api/users/{id}`, admin only)
(user.go:314-373): role gate, validation, email-taken check, then
`UPDATE users SET name = $1, email = $2, role = $3, ... WHERE id = $4
RETURNING ...` — the role column is written from the request. -/
def updateUser (claims : Claims) (userId : Nat) (req : UpdateUserRequest) (now : Nat)
    (s : Store) : (Except ApiError User) × Store :=
  if claims.role != "admin" then
    (.error (.authorizationError "Insufficient permissions"), s)
  else if !req.valid then (.error (.validationError "validation failed"), s)
  else if (s.users.find? (fun u => u.email == req.email && u.id != userId)).isSome then
    (.error (.conflictError "Email already taken"), s)
  else
    let s1 := { s with users := s.users.map (fun u =>
        if u.id == userId then
          { u with name := req.name, email := req.email, role := req.role,
                   updatedAt := now }
        else u) }
    match findUserById s1 userId with
    | none => (.error (.notFoundError "User not found"), s1)
    | some u => (.ok u, s1)

/-- `UserHandler.UpdateProfile` (`PUT /api/users/profile`, auth)
(user.go:128-170): writes only name, email and updated_at of the caller's
own row; a scan failure (including no row) is a 500. -/
def updateProfile (claims : Claims) (req : UpdateProfileRequest) (now : Nat)
    (s : Store) : (Except ApiError User) × Store :=
  if !req.valid then (.error (.validationError "validation failed"), s)
  else if (s.users.find? (fun u => u.email == req.email && u.id != claims.userID)).isSome then
    (.error (.conflictError "Email already taken"), s)
  else
    let s1 := { s with users := s.users.map (fun u =>
        if u.id == claims.userID then
          { u with name := req.name, email := req.email, updatedAt := now }
        else u) }
    match findUserById s1 claims.userID with
    | none => (.error (.storeError "Failed to update profile"), s1)
    | some u => (.ok u, s1)

/-- `UserHandler.ChangePassword` (`POST /api/users/change-password`, auth)
(user.go:181-235): verifies the current password, then writes only
password_hash and updated_at of the caller's own row. -/
def changePassword (claims : Claims) (req : ChangePasswordRequest) (now : Nat)
    (s : Store) : (Except ApiError Unit) × Store :=
  if !req.valid then (.error (.validationError "validation failed"), s)
  else
    match findUserById s claims.userID with
    | none => (.error (.notFoundError "User not found"), s)
    | some u =>
      if !checkPasswordHash req.currentPassword u.passwordHash then
        (.error (.validationError "Current password is incorrect"), s)
      else
        (.ok (), { s with users := s.users.map (fun v =>
            if v.id == claims.userID then
              { v with passwordHash := hashPassword req.newPassword, updatedAt := now }
            else v) })

/-- `UserHandler.ResetPassword` (`POST /api/users/{id}/reset-password`,
admin only) (user.go:438-502): writes only password_hash and updated_at;
`rowsAffected == 0` maps to 404. -/
def resetPassword (claims : Claims) (userId : Nat) (req : ResetPasswordRequest)
    (now : Nat) (s : Store) : (Except ApiError Unit) × Store :=
  if claims.role != "admin" then
    (.error (.authorizationError "Insufficient permissions"), s)
  else if !req.valid then (.error (.validationError "validation failed"), s)
  else
    let s1 := { s with users := s.users.map (fun u =>
        if u.id == userId then
          { u with passwordHash := hashPassword req.newPassword, updatedAt := now }
        else u) }
    if (findUserById s userId).isNone then
      (.error (.notFoundError "User not found"), s1)
    else
      (.ok (), s1)

/-- `DriverHandler.UpdateDriver` (`PUT /api/drivers/{id}`, admin only)
(auth.go part, lines 406-467 of the driver handler): writes only name,
email and updated_at of a row `WHERE id = $3 AND role = 'driver'`;
`ErrNoRows` maps to 404. -/
def updateDriver (claims : Claims) (driverId : Nat) (req : UpdateDriverRequest)
    (now : Nat) (s : Store) : (Except ApiError User) × Store :=
  if claims.role != "admin" then
    (.error (.authorizationError "Insufficient permissions"), s)
  else if !req.valid then (.error (.validationError "validation failed"), s)
  else
    let s1 := { s with users := s.users.map (fun u =>
        if u.id == driverId && u.role == "driver" then
          { u with name := req.name, email := req.email, updatedAt := now }
        else u) }
    match s1.users.find? (fun u => u.id == driverId && u.role == "driver") with
    | none => (.error (.notFoundError "Driver not found"), s1)
    | some u => (.ok u, s1)

/-! ## Concrete fixtures

Small stores mirroring the migration's seed data, used for witnesses,
counterexamples and code-bug evidence. -/

/-- A zone row: id 1, integral price per kg. -/
def zoneLocal : Zone :=
  { id := 1, name := "Local", pricePerKg := 3, createdAt := 0, updatedAt := 0 }

/-- The seeded admin user. -/
def adminUser : User :=
  { id := 1, name := "GoExpress Admin", email := "admin@goexpress.com",
    passwordHash := hashPassword "goexpress123", role := "admin",
    createdAt := 0, updatedAt := 0 }

/-- A client user. -/
def clientUser : User :=
  { id := 2, name := "Test Client", email := "testclient@goexpress.com",
    passwordHash := hashPassword "client123", role := "client",
    createdAt := 0, updatedAt := 0 }

/-- A driver user. -/
def driverUser : User :=
  { id := 3, name := "Test Driver", email := "driver@goexpress.com",
    passwordHash := hashPassword "driver123", role := "driver",
    createdAt := 0, updatedAt := 0 }

/-- A shipment of client 2 in zone 1, assigned to driver 3. -/
def sampleShipment : Shipment :=
  { id := 1, trackingNumber := "GEX0A1B2C3D", origin := "Ouagadougou",
    destination := "Bobo-Dioulasso", weight := 4, zoneId := 1,
    status := "pending", customerId := 2, driverId := some 3,
    createdAt := 0, updatedAt := 0 }

/-- The initial tracking row of `sampleShipment`. -/
def sampleTracking : TrackingUpdate :=
  { id := 1, shipmentId := 1, status := "pending", location := "Ouagadougou",
    timestamp := 0, createdAt := 0 }

/-- A populated store: three users, one zone, one shipment with its initial
tracking row. -/
def sampleStore : Store :=
  { users := [adminUser, clientUser, driverUser], zones := [zoneLocal],
    shipments := [sampleShipment], trackingUpdates := [sampleTracking],
    nextUserId := 4, nextZoneId := 2, nextShipmentId := 2, nextTrackingId := 2 }

/-- A store with users and a zone but no shipments yet. -/
def emptyShipStore : Store :=
  { users := [adminUser, clientUser], zones := [zoneLocal], shipments := [],
    trackingUpdates := [], nextUserId := 3, nextZoneId := 2,
    nextShipmentId := 1, nextTrackingId := 1 }

/-! ## Helper lemmas -/

theorem find?_map_of_pred_eq {α : Type} (p : α → Bool) (f : α → α)
    (hf : ∀ x, p (f x) = p x) :
    ∀ l : List α, (l.map f).find? p = (l.find? p).map f := by
  intro l
  induction l with
  | nil => rfl
  | cons a l ih =>
    rw [List.map_cons]
    cases hpa : p a
    · rw [List.find?_cons_of_neg _ (by simp [hf, hpa]),
        List.find?_cons_of_neg _ (by simp [hpa]), ih]
    · rw [List.find?_cons_of_pos _ (by simp [hf, hpa]),
        List.find?_cons_of_pos _ (by simp [hpa]), Option.map_some']

theorem map_eq_self_of_find?_eq_none {α : Type} (p : α → Bool) (f : α → α)
    (hf : ∀ x, p x = false → f x = x) (l : List α) (hl : l.find? p = none) :
    l.map f = l := by
  have h := List.find?_eq_none.mp hl
  have hfx : ∀ x ∈ l, f x = x := fun x hx => hf x (by simpa using h x hx)
  calc l.map f = l.map id := List.map_congr_left hfx
    _ = l := List.map_id l

theorem hexDigit_mem_of_lt {n : Nat} (h : n < 16) : hexDigit n ∈ hexDigits := by
  interval_cases n <;> decide

theorem bytesHexChars_length :
    ∀ bs : List Nat, (bytesHexChars bs).length = 2 * bs.length := by
  intro bs
  induction bs with
  | nil => rfl
  | cons b bs ih =>
    simp only [bytesHexChars, List.length_cons, ih]
    omega

theorem bytesHexChars_mem_hexDigits :
    ∀ bs : List Nat, (∀ x ∈ bs, x < 256) → ∀ c ∈ bytesHexChars bs, c ∈ hexDigits := by
  intro bs
  induction bs with
  | nil => intro _ c hc; simp [bytesHexChars] at hc
  | cons b bs ih =>
    intro hb c hc
    have hblt : b < 256 := hb b (by simp)
    simp only [bytesHexChars, List.mem_cons] at hc
    rcases hc with rfl | rfl | hc
    · exact hexDigit_mem_of_lt ((Nat.div_lt_iff_lt_mul (by norm_num)).mpr (by omega))
    · exact hexDigit_mem_of_lt (Nat.mod_lt b (by norm_num))
    · exact ih (fun x hx => hb x (by simp [hx])) c hc

/-! ## Claim theorems -/

/-- C8: every tracking number produced by `GenerateTrackingNumber` — for
every value of the 4 random bytes — is the prefix `"GEX"` followed by
exactly 8 uppercase hexadecimal characters (it matches `^GEX[0-9A-F]{8}$`),
and the tracking_number of every shipment created with it is that exact
string. -/
theorem generateTrackingNumber_format (bs : List Nat) (hlen : bs.length = 4)
    (hb : ∀ x ∈ bs, x < 256) :
    (generateTrackingNumber bs).data = 'G' :: 'E' :: 'X' :: bytesHexChars bs ∧
    (bytesHexChars bs).length = 8 ∧
    (∀ c ∈ bytesHexChars bs, c ∈ hexDigits) ∧
    (generateTrackingNumber bs).length = 11 ∧
    (∀ claims req now fails s sh s2,
      createShipment claims req (generateTrackingNumber bs) now fails s = (.ok sh, s2) →
      sh.trackingNumber = generateTrackingNumber bs) := by
  refine ⟨rfl, by rw [bytesHexChars_length, hlen], bytesHexChars_mem_hexDigits bs hb, ?_, ?_⟩
  · show ('G' :: 'E' :: 'X' :: bytesHexChars bs).length = 11
    simp only [List.length_cons, bytesHexChars_length, hlen]
  · intro claims req now fails s sh s2 h
    simp only [createShipment] at h
    split at h
    · simp at h
    · split at h
      · simp at h
      · split at h
        · simp at h
        · rw [Prod.mk.injEq] at h
          obtain ⟨h1, -⟩ := h
          injection h1 with h1
          rw [← h1]

/-- C6: `GetShipmentByTracking` validates the format first: an input that
does not start with `"GEX"` or whose length is not 11 is rejected with a
400 ValidationError on every store (so before any store access); a
well-formed tracking number with no matching shipment yields a 404
NotFoundError. -/
theorem getShipmentByTracking_format_then_lookup (tn : String) (s : Store) :
    (("GEX".data.isPrefixOf tn.data = false ∨ tn.length ≠ 11) →
      getShipmentByTracking tn s =
        .error (.validationError "Invalid tracking number format")) ∧
    ("GEX".data.isPrefixOf tn.data = true → tn.length = 11 →
      findShipmentByTracking s tn = none →
      getShipmentByTracking tn s = .error (.notFoundError "Shipment not found")) := by
  constructor
  · intro h
    have hv : validateTrackingNumber tn = false := by
      unfold validateTrackingNumber
      rcases h with h | h
      · simp [h]
      · simp [h]
    unfold getShipmentByTracking
    simp [hv]
  · intro h1 h2 h3
    have hv : validateTrackingNumber tn = true := by
      unfold validateTrackingNumber
      simp [h1, h2]
    unfold getShipmentByTracking
    simp [hv, h3]

/-- C9: for every positive weight and nonzero zone id (serial ids are
nonzero), `GetQuote` returns `totalPrice = weight * zone.price_per_kg` with
the zone's current price and no rounding when the zone exists, and a 404
NotFoundError when no zone with that id exists. -/
theorem getQuote_exact_price (req : QuoteRequest) (s : Store)
    (hw : 0 < req.weight) (hz : req.zoneId ≠ 0) :
    (∀ z, findZone s req.zoneId = some z →
      getQuote req s = .ok { weight := req.weight, zoneId := req.zoneId,
                             zoneName := z.name, pricePerKg := z.pricePerKg,
                             totalPrice := req.weight * z.pricePerKg }) ∧
    (findZone s req.zoneId = none →
      getQuote req s = .error (.notFoundError "Zone not found")) := by
  have hv : req.valid = true := by
    unfold QuoteRequest.valid
    simp [hw, hz]
  constructor
  · intro z hfz
    unfold getQuote
    simp [hv, hfz]
  · intro hfz
    unfold getQuote
    simp [hv, hfz]

/-- C2: role-scoped listing (`GET /api/shipments`): a client's listing
contains only shipments with their own customer_id, a driver's only
shipments with driver_id equal to their own id, and an admin's listing
contains every shipment in the store. -/
theorem getShipments_role_visibility (claims : Claims) (s : Store) :
    (claims.role = "client" →
      ∀ sh ∈ getShipments claims s, sh.customerId = claims.userID) ∧
    (claims.role = "driver" →
      ∀ sh ∈ getShipments claims s, sh.driverId = some claims.userID) ∧
    (claims.role = "admin" →
      ∀ sh ∈ s.shipments, sh ∈ getShipments claims s) := by
  refine ⟨?_, ?_, ?_⟩
  · intro hrole sh hm
    simp only [getShipments, hrole] at hm
    have h1 : (("client" : String) == "admin") = false := by decide
    have h2 : (("client" : String) == "driver") = false := by decide
    rw [h1, h2] at hm
    simp only [Bool.false_eq_true, if_false] at hm
    have hmem := (List.perm_insertionSort _ _).mem_iff.mp hm
    exact eq_of_beq (List.mem_filter.mp hmem).2
  · intro hrole sh hm
    simp only [getShipments, hrole] at hm
    have h1 : (("driver" : String) == "admin") = false := by decide
    have h2 : (("driver" : String) == "driver") = true := by decide
    rw [h1, h2] at hm
    simp only [Bool.false_eq_true, if_false, if_true] at hm
    have hmem := (List.perm_insertionSort _ _).mem_iff.mp hm
    exact eq_of_beq (List.mem_filter.mp hmem).2
  · intro hrole sh hm
    simp only [getShipments, hrole]
    have h1 : (("admin" : String) == "admin") = true := by decide
    rw [h1]
    simp only [if_true]
    exact (List.perm_insertionSort _ _).mem_iff.mpr hm

/-- C7: a successful status update on an existing shipment appends exactly
one TrackingUpdate row — carrying the requested status and location, with
the current time as its timestamp — and the stored shipment's status
afterwards equals the status of that latest row. -/
theorem updateShipmentStatus_appends_one (s : Store) (shipmentId : Nat)
    (req : StatusUpdateRequest) (now : Nat) (sh0 : Shipment)
    (hfound : findShipmentById s shipmentId = some sh0)
    (hst : req.status ≠ "") :
    ∃ sh s2 tu,
      updateShipmentStatus shipmentId req now s = (.ok sh, s2) ∧
      s2.trackingUpdates = s.trackingUpdates ++ [tu] ∧
      tu.shipmentId = shipmentId ∧ tu.status = req.status ∧
      tu.location = req.location ∧ tu.timestamp = now ∧
      (s2.trackingUpdates.filter (fun t => t.shipmentId == shipmentId)).length
        = (s.trackingUpdates.filter (fun t => t.shipmentId == shipmentId)).length + 1 ∧
      sh.status = req.status ∧
      findShipmentById s2 shipmentId = some sh := by
  have hbeq : (req.status == "") = false := by simp [hst]
  have hfound' : s.shipments.find? (fun sh => sh.id == shipmentId) = some sh0 := hfound
  have hid : (sh0.id == shipmentId) = true := by
    have h := List.find?_some hfound'
    simpa using h
  have hpres : ∀ x : Shipment,
      ((if x.id == shipmentId then
          { x with status := req.status, updatedAt := now } else x).id == shipmentId)
        = (x.id == shipmentId) := by
    intro x
    by_cases hx : (x.id == shipmentId) = true
    · simp [hx]
    · simp [hx]
  have hfind2 : (s.shipments.map (fun sh =>
        if sh.id == shipmentId then { sh with status := req.status, updatedAt := now }
        else sh)).find? (fun sh => sh.id == shipmentId)
        = some { sh0 with status := req.status, updatedAt := now } := by
    rw [find?_map_of_pred_eq _ _ hpres]
    unfold findShipmentById at hfound
    rw [hfound, Option.map_some']
    simp [hid]
  refine ⟨{ sh0 with status := req.status, updatedAt := now },
    { s with
        shipments := s.shipments.map (fun sh =>
          if sh.id == shipmentId then { sh with status := req.status, updatedAt := now }
          else sh),
        trackingUpdates := s.trackingUpdates ++
          [{ id := s.nextTrackingId, shipmentId := shipmentId, status := req.status,
             location := req.location, timestamp := now, createdAt := now }],
        nextTrackingId := s.nextTrackingId + 1 },
    { id := s.nextTrackingId, shipmentId := shipmentId, status := req.status,
      location := req.location, timestamp := now, createdAt := now },
    ?_, rfl, rfl, rfl, rfl, rfl, ?_, rfl, ?_⟩
  · simp only [updateShipmentStatus, findShipmentById, hbeq, Bool.false_eq_true,
      if_false, hfind2, Option.isNone_some]
  · simp [List.filter_append]
  · simp only [findShipmentById]
    exact hfind2

/-- C10: a status update whose shipment id does not exist fails with the
500 StoreError raised at the tracking-update insert (the shipments UPDATE
silently matches zero rows; the insert then violates the
`shipment_id REFERENCES shipments(id)` foreign key) — not a NotFoundError —
and leaves the store unchanged. -/
theorem updateShipmentStatus_missing_id (s : Store) (shipmentId : Nat)
    (req : StatusUpdateRequest) (now : Nat)
    (hnone : findShipmentById s shipmentId = none) (hst : req.status ≠ "") :
    updateShipmentStatus shipmentId req now s =
      (.error (.storeError "Failed to add tracking update"), s) := by
  have hbeq : (req.status == "") = false := by simp [hst]
  unfold findShipmentById at hnone
  have hmap : s.shipments.map (fun sh =>
      if sh.id == shipmentId then { sh with status := req.status, updatedAt := now }
      else sh) = s.shipments := by
    apply map_eq_self_of_find?_eq_none _ _ _ _ hnone
    intro x hx
    simp [hx]
  simp only [updateShipmentStatus, findShipmentById, hbeq, Bool.false_eq_true, if_false,
    hmap, hnone, Option.isNone_none, if_true]

theorem map_pair_of_preserves {f : User → User}
    (hf : ∀ u, (f u).id = u.id ∧ (f u).role = u.role) (l : List User) :
    (l.map f).map (fun u => (u.id, u.role)) = l.map (fun u => (u.id, u.role)) := by
  rw [List.map_map]
  apply List.map_congr_left
  intro u _
  simp [Function.comp_apply, (hf u).1, (hf u).2]

/-- C1 (code evidence): `CreateShipment` is not atomic.  With a valid
request against a store holding the referenced zone and customer, when the
initial tracking-update insert fails after the shipment insert succeeded
(the two inserts are separate auto-committed statements; the code has no
transaction boundary), the handler returns the 500 error while the store
keeps the half-created shipment row and no tracking row: the state is not
unchanged. -/
theorem createShipment_not_atomic :
    createShipment { userID := 2, email := "testclient@goexpress.com", role := "client" }
        { origin := "Ouagadougou", destination := "Bobo-Dioulasso", weight := 4, zoneId := 1 }
        "GEXAAAAAAAA" 7 true emptyShipStore
      = (.error (.storeError "Failed to create tracking update"),
         { emptyShipStore with
             shipments := [{ id := 1, trackingNumber := "GEXAAAAAAAA",
                             origin := "Ouagadougou", destination := "Bobo-Dioulasso",
                             weight := 4, zoneId := 1, status := "pending",
                             customerId := 2, driverId := none,
                             createdAt := 7, updatedAt := 7 }],
             nextShipmentId := 2 }) := by
  rfl

/-- C3: the public register operation accepts role `"admin"`: every valid
registration request carrying role `"admin"` and a fresh email succeeds
(201), creates a user whose role is admin, and issues access and refresh
tokens for that admin identity. -/
theorem register_accepts_admin_role (req : UserRegistration) (now : Nat)
    (jwtSecret refreshSecret : String) (s : Store)
    (hrole : req.role = "admin") (hvalid : req.valid = true)
    (hfresh : findUserByEmail s req.email = none) :
    ∃ u s1, register req now jwtSecret refreshSecret s =
        (.ok { token := generateJWT u.id u.email u.role jwtSecret,
               refreshToken := generateRefreshToken u.id u.email u.role refreshSecret,
               user := u }, s1) ∧
      u.role = "admin" ∧ u.email = req.email ∧ u ∈ s1.users := by
  refine ⟨{ id := s.nextUserId, name := req.name, email := req.email,
            passwordHash := hashPassword req.password, role := req.role,
            createdAt := now, updatedAt := now },
    { s with
        users := s.users ++ [{ id := s.nextUserId, name := req.name, email := req.email,
                               passwordHash := hashPassword req.password, role := req.role,
                               createdAt := now, updatedAt := now }],
        nextUserId := s.nextUserId + 1 }, ?_, hrole, rfl, ?_⟩
  · simp only [register, hvalid, Bool.not_true, Bool.false_eq_true, if_false, hfresh,
      Option.isSome_none]
  · exact List.mem_append_right _ (List.mem_singleton_self _)

/-- C4 (counterexample): the role of an existing user is not immutable:
user 2 was created with role `"client"`, and the admin-only UpdateUser
operation sets it to the requested `"driver"`. -/
theorem updateUser_changes_role :
    (sampleStore.users.find? (fun u => u.id == 2)).map User.role = some "client" ∧
    (((updateUser { userID := 1, email := "admin@goexpress.com", role := "admin" } 2
        { name := "Test Client", email := "testclient@goexpress.com", role := "driver" }
        9 sampleStore).2.users.find? (fun u => u.id == 2)).map User.role)
      = some "driver" := by
  exact ⟨rfl, rfl⟩

/-- C4 (amended): the role column is written only by the admin-only
UpdateUser operation, which sets it to the requested role; the other
exposed operations that modify existing user rows — profile update,
password change, password reset, driver update — preserve every user's
id-to-role assignment, and a non-admin caller is stopped by the 403 gate
before the role write. -/
theorem role_written_only_by_admin_updateUser (claims : Claims) (s : Store) (now : Nat) :
    (∀ req : UpdateProfileRequest,
      (updateProfile claims req now s).2.users.map (fun u => (u.id, u.role))
        = s.users.map (fun u => (u.id, u.role))) ∧
    (∀ req : ChangePasswordRequest,
      (changePassword claims req now s).2.users.map (fun u => (u.id, u.role))
        = s.users.map (fun u => (u.id, u.role))) ∧
    (∀ (userId : Nat) (req : ResetPasswordRequest),
      (resetPassword claims userId req now s).2.users.map (fun u => (u.id, u.role))
        = s.users.map (fun u => (u.id, u.role))) ∧
    (∀ (driverId : Nat) (req : UpdateDriverRequest),
      (updateDriver claims driverId req now s).2.users.map (fun u => (u.id, u.role))
        = s.users.map (fun u => (u.id, u.role))) ∧
    (claims.role ≠ "admin" → ∀ (userId : Nat) (req : UpdateUserRequest),
      updateUser claims userId req now s =
        (.error (.authorizationError "Insufficient permissions"), s)) ∧
    (∀ (userId : Nat) (req : UpdateUserRequest) (u : User) (s1 : Store),
      updateUser claims userId req now s = (.ok u, s1) → u.role = req.role) := by
  refine ⟨?_, ?_, ?_, ?_, ?_, ?_⟩
  · intro req
    simp only [updateProfile]
    split
    · rfl
    · split
      · rfl
      · split
        · exact map_pair_of_preserves (fun u => by
            by_cases h : (u.id == claims.userID) = true <;> simp [h]) s.users
        · exact map_pair_of_preserves (fun u => by
            by_cases h : (u.id == claims.userID) = true <;> simp [h]) s.users
  · intro req
    simp only [changePassword]
    split
    · rfl
    · split
      · rfl
      · split
        · rfl
        · exact map_pair_of_preserves (fun u => by
            by_cases h : (u.id == claims.userID) = true <;> simp [h]) s.users
  · intro userId req
    simp only [resetPassword]
    split
    · rfl
    · split
      · rfl
      · split
        · exact map_pair_of_preserves (fun u => by
            by_cases h : (u.id == userId) = true <;> simp [h]) s.users
        · exact map_pair_of_preserves (fun u => by
            by_cases h : (u.id == userId) = true <;> simp [h]) s.users
  · intro driverId req
    simp only [updateDriver]
    split
    · rfl
    · split
      · rfl
      · split
        · exact map_pair_of_preserves (fun u => by
            by_cases h : (u.id == driverId && u.role == "driver") = true <;> simp [h]) s.users
        · exact map_pair_of_preserves (fun u => by
            by_cases h : (u.id == driverId && u.role == "driver") = true <;> simp [h]) s.users
  · intro hna userId req
    simp only [updateUser]
    rw [if_pos (bne_iff_ne.mpr hna)]
  · intro userId req u s1 h
    simp only [updateUser, findUserById] at h
    split at h
    · simp at h
    · split at h
      · simp at h
      · split at h
        · simp at h
        · rw [find?_map_of_pred_eq _ _ (fun x => by
            by_cases hx : (x.id == userId) = true <;> simp [hx])] at h
          cases hfx : List.find? (fun v => v.id == userId) s.users with
          | none => rw [hfx] at h; simp at h
          | some x =>
            rw [hfx, Option.map_some'] at h
            have hx : (x.id == userId) = true := by simpa using List.find?_some hfx
            rw [if_pos hx] at h
            rw [Prod.mk.injEq] at h
            obtain ⟨h1, -⟩ := h
            injection h1 with h1
            rw [← h1]

/-- C5 (counterexample): deleting zone 1 while `sampleShipment` references
it does not produce a 409 ConflictError: the foreign-key violation surfaces
as the generic 500 StoreError (the zone row does remain in the store). -/
theorem deleteZone_referenced_not_conflict :
    deleteZone 1 sampleStore
      = (.error (.storeError "Failed to delete zone"), sampleStore) := by
  rfl

/-- C5 (amended): deleting a zone referenced by at least one shipment fails
with the generic 500 StoreError (`"Failed to delete zone"`) — the database
foreign-key violation is not translated to a domain ConflictError — and the
store, the zone row included, is unchanged. -/
theorem deleteZone_referenced_storeError (s : Store) (zoneId : Nat)
    (h : s.shipments.any (fun sh => sh.zoneId == zoneId) = true) :
    deleteZone zoneId s = (.error (.storeError "Failed to delete zone"), s) := by
  unfold deleteZone
  rw [if_pos h]

/-! ## Witnesses: the theorems above instantiated at concrete inputs -/

/-- Witness for C2: the role-visibility theorem applied to concrete
claims and the sample store. -/
theorem getShipments_role_visibility_witness :
    sampleShipment.customerId = 2 ∧ sampleShipment.driverId = some 3 ∧
    sampleShipment ∈ getShipments
      { userID := 1, email := "admin@goexpress.com", role := "admin" } sampleStore := by
  refine ⟨?_, ?_, ?_⟩
  · exact (getShipments_role_visibility
      { userID := 2, email := "testclient@goexpress.com", role := "client" }
      sampleStore).1 rfl sampleShipment (by decide)
  · exact (getShipments_role_visibility
      { userID := 3, email := "driver@goexpress.com", role := "driver" }
      sampleStore).2.1 rfl sampleShipment (by decide)
  · exact (getShipments_role_visibility
      { userID := 1, email := "admin@goexpress.com", role := "admin" }
      sampleStore).2.2 rfl sampleShipment (by decide)

/-- Witness for C3: registering `"Eve"` with role `"admin"` on a store
with no such email yields an admin user in the response. -/
theorem register_accepts_admin_role_witness :
    ((register { name := "Eve", email := "eve@goexpress.com", password := "secret1",
                 role := "admin" } 3 "access-secret" "refresh-secret-2" emptyShipStore).1.map
      (fun r => r.user.role)) = .ok "admin" := by
  obtain ⟨u, s1, h1, h2, h3, h4⟩ :=
    register_accepts_admin_role
      { name := "Eve", email := "eve@goexpress.com", password := "secret1",
        role := "admin" } 3 "access-secret" "refresh-secret-2" emptyShipStore
      rfl (by decide) rfl
  rw [h1]
  show Except.ok u.role = Except.ok "admin"
  rw [h2]

/-- Witness for C4 (amended): the profile update on the sample store leaves
every user's id-to-role assignment untouched. -/
theorem role_written_only_witness :
    (updateProfile { userID := 2, email := "testclient@goexpress.com", role := "client" }
        { name := "New Name", email := "newmail@goexpress.com" } 4 sampleStore).2.users.map
      (fun u => (u.id, u.role))
      = sampleStore.users.map (fun u => (u.id, u.role)) :=
  (role_written_only_by_admin_updateUser
    { userID := 2, email := "testclient@goexpress.com", role := "client" }
    sampleStore 4).1 { name := "New Name", email := "newmail@goexpress.com" }

/-- Witness for C5 (amended): the FK-guard theorem applied to the sample
store, where shipment 1 references zone 1. -/
theorem deleteZone_referenced_storeError_witness :
    deleteZone 1 sampleStore = (.error (.storeError "Failed to delete zone"), sampleStore) :=
  deleteZone_referenced_storeError sampleStore 1 (by decide)

/-- Witness for C6: `"BAD"` is rejected as malformed, and the well-formed
`"GEX00000000"` with no matching shipment yields the 404. -/
theorem getShipmentByTracking_witness :
    getShipmentByTracking "BAD" sampleStore =
      .error (.validationError "Invalid tracking number format") ∧
    getShipmentByTracking "GEX00000000" sampleStore =
      .error (.notFoundError "Shipment not found") :=
  ⟨(getShipmentByTracking_format_then_lookup "BAD" sampleStore).1 (Or.inl (by decide)),
   (getShipmentByTracking_format_then_lookup "GEX00000000" sampleStore).2
     (by decide) (by decide) rfl⟩

/-- Witness for C7: after one status update on shipment 1, its tracking
history has two rows. -/
theorem updateShipmentStatus_appends_one_witness :
    ((updateShipmentStatus 1 { status := "in_transit", location := "Bobo-Dioulasso" } 5
        sampleStore).2.trackingUpdates.filter (fun t => t.shipmentId == 1)).length = 2 := by
  obtain ⟨sh, s2, tu, h1, h2, h3, h4, h5, h6, h7, h8, h9⟩ :=
    updateShipmentStatus_appends_one sampleStore 1
      { status := "in_transit", location := "Bobo-Dioulasso" } 5 sampleShipment
      rfl (by decide)
  rw [h1, h7]
  rfl

/-- Witness for C8: the tracking number generated from the bytes
`[0, 26, 188, 255]` has length 11. -/
theorem generateTrackingNumber_format_witness :
    (generateTrackingNumber [0, 26, 188, 255]).length = 11 :=
  (generateTrackingNumber_format [0, 26, 188, 255] (by decide) (by decide)).2.2.2.1

/-- Witness for C9: a 4 kg quote in zone 1 (3 per kg) is priced
`4 * 3`. -/
theorem getQuote_exact_price_witness :
    getQuote { weight := 4, zoneId := 1 } sampleStore =
      .ok { weight := 4, zoneId := 1, zoneName := "Local",
            pricePerKg := 3, totalPrice := 4 * 3 } :=
  (getQuote_exact_price { weight := 4, zoneId := 1 } sampleStore
    (by decide) (by decide)).1 zoneLocal rfl

/-- Witness for C10: updating the status of the absent shipment 99 yields
the 500 StoreError and leaves the sample store unchanged. -/
theorem updateShipmentStatus_missing_id_witness :
    updateShipmentStatus 99 { status := "delivered", location := "Accra" } 5 sampleStore
      = (.error (.storeError "Failed to add tracking update"), sampleStore) :=
  updateShipmentStatus_missing_id sampleStore 99
    { status := "delivered", location := "Accra" } 5 rfl (by decide)

end GoExpress
